import Mathlib

/-!
Verification of the inter-exchange (NSE/BSE) arbitrage core.

This file is a shallow embedding of the decision/coordination engine of the
repository, covering:

- `src/src/config/settings.py` (`RiskLimits`, `Settings.quantity_for`),
- `src/src/core/spread_detector.py` (`QuoteSnapshot`, `SpreadSignal`,
  `SpreadDetector.evaluate`, `SpreadDetector._has_liquidity`),
- `src/src/core/safety.py` (`SafetyManager` with `can_trade`,
  `register_open`, `register_close`, `record_trade`),
- `src/src/core/order_executor.py` (`OrderLeg`, the safety-call/failsafe
  structure of `execute_pair`, `_post_execute` and `_failsafe`),
- `src/src/core/decision_engine.py` (`_market_open`, `_build_snapshot`, and
  the per-tick step of `DecisionEngine.run`).

Modelling conventions: Python floats (prices, spreads, timestamps) become
rationals (`Rat`); Python ints (quantities, counters) become `Int` or `Nat`;
Python dicts keyed by strings become insertion-ordered association lists,
matching CPython dict semantics (new keys appended at the end, updates in
place); `time.time()` and `datetime.now().time()` become explicit `now`
parameters (time of day measured in minutes after midnight for the trading
window). Venue calls and the asyncio machinery are not re-executed: leg
placement outcomes enter the model as abstract per-leg results, and the
executor functions are modelled as pure functions that also emit the ordered
trace of `SafetyManager` calls they perform.
-/

namespace Arb

/-- Risk limits, from `RiskLimits` in `src/src/config/settings.py`. -/
structure RiskLimits where
  max_trades_per_minute : Nat
  max_open_exposure : Nat
  max_failed_fills : Nat
  max_slippage_per_leg : Rat
deriving Repr, DecidableEq

/-- The slice of `Settings` (src/src/config/settings.py) that the core logic
reads: spread threshold, quantities, the trading window, and risk limits.
`trading_start`/`trading_end` are times of day in minutes after midnight
(`datetime.time` compares lexicographically, so any strictly monotone
encoding is faithful). -/
structure Settings where
  min_spread : Rat
  default_quantity : Int
  per_symbol_qty : List (String × Int)
  trading_start : Nat
  trading_end : Nat
  risk : RiskLimits
deriving Repr, DecidableEq

/-- Source: `Settings.quantity_for`: `self.per_symbol_qty.get(symbol, self.default_quantity)`. -/
def Settings.quantity_for (s : Settings) (symbol : String) : Int :=
  match s.per_symbol_qty.lookup symbol with
  | some q => q
  | none => s.default_quantity

/-- Source: `QuoteSnapshot` from `src/src/core/spread_detector.py`. The two depth
dicts are carried as price-level lists; no core logic inspects them. -/
structure QuoteSnapshot where
  symbol : String
  nse_ltp : Rat
  bse_ltp : Rat
  nse_bid : Rat
  nse_ask : Rat
  bse_bid : Rat
  bse_ask : Rat
  nse_bid_qty : Int
  nse_ask_qty : Int
  bse_bid_qty : Int
  bse_ask_qty : Int
  nse_depth : List (Rat × Int)
  bse_depth : List (Rat × Int)
deriving Repr, DecidableEq

/-- Source: `SpreadSignal` from `src/src/core/spread_detector.py`. -/
structure SpreadSignal where
  symbol : String
  spread : Rat
  buy_exchange : String
  sell_exchange : String
  quantity : Int
deriving Repr, DecidableEq

/-- Source: `SpreadDetector` instance state: the constructor argument `min_spread`. -/
structure SpreadDetector where
  min_spread : Rat
deriving Repr, DecidableEq

namespace SpreadDetector

/-- Source: `SpreadDetector._has_liquidity`:
`buy_side_qty >= required and sell_side_qty >= required`. -/
def has_liquidity (buy_side_qty sell_side_qty required : Int) : Bool :=
  decide (buy_side_qty ≥ required) && decide (sell_side_qty ≥ required)

/-- Source: `SpreadDetector.evaluate` (src/src/core/spread_detector.py, lines 43-91),
with the global `settings` passed explicitly. -/
def evaluate (st : Settings) (d : SpreadDetector) (snapshot : QuoteSnapshot) :
    Option SpreadSignal :=
  let qty := st.quantity_for snapshot.symbol
  let min_spread_threshold := max d.min_spread st.min_spread
  let spread_nse_buy := snapshot.bse_bid - snapshot.nse_ask
  let spread_bse_buy := snapshot.nse_bid - snapshot.bse_ask
  if spread_nse_buy ≥ spread_bse_buy ∧ spread_nse_buy ≥ min_spread_threshold then
    if ! has_liquidity snapshot.nse_ask_qty snapshot.bse_bid_qty qty then none
    else some (SpreadSignal.mk snapshot.symbol spread_nse_buy "NSE" "BSE" qty)
  else if spread_bse_buy ≥ min_spread_threshold then
    if ! has_liquidity snapshot.bse_ask_qty snapshot.nse_bid_qty qty then none
    else some (SpreadSignal.mk snapshot.symbol spread_bse_buy "BSE" "NSE" qty)
  else none

end SpreadDetector

/-- C1: for every `QuoteSnapshot`, `SpreadDetector.evaluate` returns a signal
iff the chosen-direction executable spread (the larger of `bse_bid - nse_ask`
and `nse_bid - bse_ask`, ties resolved toward the buy-NSE direction) is at
least `max(instance threshold, global minimum spread)` and both the chosen
buy-side ask quantity and the chosen sell-side bid quantity are at least the
required quantity for the symbol; the signal then carries exactly that
spread, that direction and that quantity. -/
theorem evaluate_signal_characterization (st : Settings) (d : SpreadDetector)
    (snapshot : QuoteSnapshot) :
    SpreadDetector.evaluate st d snapshot =
      (if snapshot.bse_bid - snapshot.nse_ask ≥ snapshot.nse_bid - snapshot.bse_ask then
        (if snapshot.bse_bid - snapshot.nse_ask ≥ max d.min_spread st.min_spread ∧
            snapshot.nse_ask_qty ≥ st.quantity_for snapshot.symbol ∧
            snapshot.bse_bid_qty ≥ st.quantity_for snapshot.symbol then
          some (SpreadSignal.mk snapshot.symbol (snapshot.bse_bid - snapshot.nse_ask)
            "NSE" "BSE" (st.quantity_for snapshot.symbol))
        else none)
      else
        (if snapshot.nse_bid - snapshot.bse_ask ≥ max d.min_spread st.min_spread ∧
            snapshot.bse_ask_qty ≥ st.quantity_for snapshot.symbol ∧
            snapshot.nse_bid_qty ≥ st.quantity_for snapshot.symbol then
          some (SpreadSignal.mk snapshot.symbol (snapshot.nse_bid - snapshot.bse_ask)
            "BSE" "NSE" (st.quantity_for snapshot.symbol))
        else none)) := by
  simp only [SpreadDetector.evaluate, SpreadDetector.has_liquidity]
  split_ifs with h1 h2 h3 h4 h5 h6 h7 h8 <;>
    simp_all <;> try omega
  all_goals linarith [h1 (by linarith)]

/-- C9: when the two directional spreads are exactly equal, meet the
threshold, and both directions have sufficient liquidity,
`SpreadDetector.evaluate` deterministically returns the buy-NSE/sell-BSE
direction (the first branch of the evaluation order), never the opposite. -/
theorem evaluate_tie_break (st : Settings) (d : SpreadDetector) (snapshot : QuoteSnapshot)
    (heq : snapshot.bse_bid - snapshot.nse_ask = snapshot.nse_bid - snapshot.bse_ask)
    (hthr : snapshot.bse_bid - snapshot.nse_ask ≥ max d.min_spread st.min_spread)
    (hl1 : snapshot.nse_ask_qty ≥ st.quantity_for snapshot.symbol)
    (hl2 : snapshot.bse_bid_qty ≥ st.quantity_for snapshot.symbol)
    (hl3 : snapshot.bse_ask_qty ≥ st.quantity_for snapshot.symbol)
    (hl4 : snapshot.nse_bid_qty ≥ st.quantity_for snapshot.symbol) :
    SpreadDetector.evaluate st d snapshot =
      some (SpreadSignal.mk snapshot.symbol (snapshot.bse_bid - snapshot.nse_ask)
        "NSE" "BSE" (st.quantity_for snapshot.symbol)) := by
  simp only [SpreadDetector.evaluate, SpreadDetector.has_liquidity]
  rw [if_pos ⟨heq.ge, hthr⟩]
  have hliq : (decide (snapshot.nse_ask_qty ≥ st.quantity_for snapshot.symbol) &&
      decide (snapshot.bse_bid_qty ≥ st.quantity_for snapshot.symbol)) = true := by
    simp [hl1, hl2]
  simp [hliq]

/-- Witness fixtures: concrete risk limits / settings / detector matching the
defaults in `src/src/config/settings.py` (max 4 trades/minute, max open
exposure 1, max 2 failed fills, max slippage 0.25, min spread 1,
default quantity 1, trading window 9:15-15:30 in minutes after midnight). -/
def riskW : RiskLimits := RiskLimits.mk 4 1 2 (1/4)

def settingsW : Settings := Settings.mk 1 1 [] 555 930 riskW

def detectorW : SpreadDetector := SpreadDetector.mk 1

/-- A snapshot whose two directional spreads are exactly equal (both 1). -/
def snapTie : QuoteSnapshot :=
  QuoteSnapshot.mk "RELIANCE" 100 100 100 99 100 99 50 50 50 50 [] []

/-- Witness for C9 at a concrete tied snapshot. -/
theorem evaluate_tie_break_witness :
    SpreadDetector.evaluate settingsW detectorW snapTie =
      some (SpreadSignal.mk snapTie.symbol (snapTie.bse_bid - snapTie.nse_ask)
        "NSE" "BSE" (settingsW.quantity_for snapTie.symbol)) :=
  evaluate_tie_break settingsW detectorW snapTie
    (by norm_num [snapTie])
    (by norm_num [snapTie, settingsW, detectorW])
    (by norm_num [snapTie, settingsW, Settings.quantity_for])
    (by norm_num [snapTie, settingsW, Settings.quantity_for])
    (by norm_num [snapTie, settingsW, Settings.quantity_for])
    (by norm_num [snapTie, settingsW, Settings.quantity_for])

/-- Source: `TradeRecord` from `src/src/core/safety.py`. -/
structure TradeRecord where
  timestamp : Rat
  symbol : String
  spread : Rat
  success : Bool
deriving Repr, DecidableEq

/-- Source: `SafetyManager` state (src/src/core/safety.py): `trade_history` models the
`deque(maxlen=1000)` with the newest record at the end; `open_symbols` models
the insertion-ordered Python dict as an association list (new keys appended at
the end, updates in place); `failed_fills` is the consecutive-failure
counter. -/
structure SafetyManager where
  trade_history : List TradeRecord
  open_symbols : List (String × Int)
  failed_fills : Nat
deriving Repr, DecidableEq

/-- Source: `dict.get(symbol, 0)` on the open-positions dict. -/
def lookupCount (m : List (String × Int)) (symbol : String) : Int :=
  match m.lookup symbol with
  | some v => v
  | none => 0

namespace SafetyManager

/-- Source: `SafetyManager.__init__`. -/
def init : SafetyManager := SafetyManager.mk [] [] 0

/-- Capacity of the `deque(maxlen=1000)` trade history. -/
def historyMaxlen : Nat := 1000

/-- Append to a bounded deque: once over capacity the oldest records at the
front are evicted. -/
def appendBounded (h : List TradeRecord) (r : TradeRecord) : List TradeRecord :=
  let h2 := h ++ [r]
  if historyMaxlen < h2.length then h2.drop (h2.length - historyMaxlen) else h2

/-- Source: `SafetyManager.can_trade` (src/src/core/safety.py lines 33-54), with
`time.time()` passed explicitly as `now`. The four gates are evaluated in
source order: sliding-window rate limit, same-symbol open trade, open
exposure, consecutive failed fills. -/
def can_trade (st : Settings) (s : SafetyManager) (symbol : String) (now : Rat) : Bool :=
  let recent := s.trade_history.filter (fun t => now - t.timestamp ≤ 60)
  let trades_per_minute := recent.length
  if st.risk.max_trades_per_minute ≤ trades_per_minute then false
  else if 0 < lookupCount s.open_symbols symbol then false
  else if st.risk.max_open_exposure ≤ s.open_symbols.length then false
  else if st.risk.max_failed_fills ≤ s.failed_fills then false
  else true

/-- Source: `self.open_symbols[symbol] = self.open_symbols.get(symbol, 0) + 1` on the
association-list dict model. -/
def bumpOpen : List (String × Int) → String → List (String × Int)
  | [], symbol => [(symbol, 1)]
  | (k, v) :: rest, symbol =>
    if k = symbol then (k, v + 1) :: rest else (k, v) :: bumpOpen rest symbol

/-- Source: `SafetyManager.register_open`. -/
def register_open (s : SafetyManager) (symbol : String) : SafetyManager :=
  SafetyManager.mk s.trade_history (bumpOpen s.open_symbols symbol) s.failed_fills

/-- Source: `register_close` body: if the symbol is present, decrement its count and
delete the entry when the decremented count is `<= 0`; otherwise leave the
dict unchanged. -/
def dropOpen : List (String × Int) → String → List (String × Int)
  | [], _ => []
  | (k, v) :: rest, symbol =>
    if k = symbol then (if v - 1 ≤ 0 then rest else (k, v - 1) :: rest)
    else (k, v) :: dropOpen rest symbol

/-- Source: `SafetyManager.register_close` (src/src/core/safety.py lines 59-63). -/
def register_close (s : SafetyManager) (symbol : String) : SafetyManager :=
  SafetyManager.mk s.trade_history (dropOpen s.open_symbols symbol) s.failed_fills

/-- Source: `SafetyManager.record_trade` (src/src/core/safety.py lines 65-72). -/
def record_trade (s : SafetyManager) (symbol : String) (spread : Rat) (success : Bool)
    (now : Rat) : SafetyManager :=
  SafetyManager.mk
    (appendBounded s.trade_history (TradeRecord.mk now symbol spread success))
    s.open_symbols
    (if success then 0 else s.failed_fills + 1)

end SafetyManager

/-- C3: `can_trade` is a true sliding window. First conjunct: at any call
time, once the records whose timestamps lie in the trailing 60 seconds number
at least max-trades-per-minute, `can_trade` is false. Second conjunct: on the
very same (unmodified) state, at any call time at which the trailing-window
count has dropped below the limit, `can_trade` is true again provided the
other three gates permit — re-enabling needs no reset operation, only the
recomputed filter over the unchanged history. -/
theorem can_trade_sliding_window (st : Settings) (s : SafetyManager) (symbol : String) :
    (∀ now : Rat,
      st.risk.max_trades_per_minute ≤
          (s.trade_history.filter (fun t => now - t.timestamp ≤ 60)).length →
      SafetyManager.can_trade st s symbol now = false)
    ∧ (∀ now : Rat,
      (s.trade_history.filter (fun t => now - t.timestamp ≤ 60)).length <
          st.risk.max_trades_per_minute →
      lookupCount s.open_symbols symbol ≤ 0 →
      s.open_symbols.length < st.risk.max_open_exposure →
      s.failed_fills < st.risk.max_failed_fills →
      SafetyManager.can_trade st s symbol now = true) := by
  constructor
  · intro now h
    simp only [SafetyManager.can_trade]
    split_ifs <;> simp_all
  · intro now h1 h2 h3 h4
    simp only [SafetyManager.can_trade]
    split_ifs <;> first | rfl | (exfalso; omega)

/-- A state with four trades all recorded at timestamp 0 and no other
activity; with the default limit of 4 trades per minute it saturates the
sliding window at time 30 and frees up again at time 61. -/
def safetyBusy : SafetyManager :=
  SafetyManager.mk
    [TradeRecord.mk 0 "RELIANCE" 1 true, TradeRecord.mk 0 "RELIANCE" 1 true,
     TradeRecord.mk 0 "RELIANCE" 1 true, TradeRecord.mk 0 "RELIANCE" 1 true]
    [] 0

/-- Witness for C3: with four trades at timestamp 0 and limit 4, `can_trade`
is false at time 30 and true again at time 61 with no state change. -/
theorem can_trade_sliding_window_witness :
    SafetyManager.can_trade settingsW safetyBusy "RELIANCE" 30 = false ∧
    SafetyManager.can_trade settingsW safetyBusy "RELIANCE" 61 = true :=
  ⟨(can_trade_sliding_window settingsW safetyBusy "RELIANCE").1 30
      (by norm_num [safetyBusy, settingsW, riskW, List.filter]),
   (can_trade_sliding_window settingsW safetyBusy "RELIANCE").2 61
      (by norm_num [safetyBusy, settingsW, riskW, List.filter])
      (by norm_num [safetyBusy, lookupCount])
      (by norm_num [safetyBusy, settingsW, riskW])
      (by norm_num [safetyBusy, settingsW, riskW])⟩

/-- C4: `record_trade` with success resets the consecutive-failure counter to
zero; with failure it increments it by exactly one; and once the counter has
reached max-failed-fills, `can_trade` is false for every symbol and every
call time (until a success resets the counter, per the first conjunct). -/
theorem record_trade_circuit_breaker (st : Settings) (s : SafetyManager) (symbol : String)
    (spread : Rat) (now : Rat) :
    (SafetyManager.record_trade s symbol spread true now).failed_fills = 0
    ∧ (SafetyManager.record_trade s symbol spread false now).failed_fills =
        s.failed_fills + 1
    ∧ (st.risk.max_failed_fills ≤ s.failed_fills →
        ∀ (symbol2 : String) (now2 : Rat),
          SafetyManager.can_trade st s symbol2 now2 = false) := by
  refine ⟨rfl, rfl, ?_⟩
  intro h symbol2 now2
  simp only [SafetyManager.can_trade]
  split_ifs <;> simp_all

/-- A state with the consecutive-failure counter already at the default
max-failed-fills limit of 2. -/
def safetyTripped : SafetyManager := SafetyManager.mk [] [] 2

/-- Witness for C4 at a concrete tripped state. -/
theorem record_trade_circuit_breaker_witness :
    (SafetyManager.record_trade safetyTripped "TCS" 1 true 5).failed_fills = 0
    ∧ (SafetyManager.record_trade safetyTripped "TCS" 1 false 5).failed_fills =
        safetyTripped.failed_fills + 1
    ∧ SafetyManager.can_trade settingsW safetyTripped "INFY" 7 = false := by
  have h := record_trade_circuit_breaker settingsW safetyTripped "TCS" 1 5
  exact ⟨h.1, h.2.1, h.2.2 (by norm_num [safetyTripped, settingsW, riskW]) "INFY" 7⟩

/-- One call against a `SafetyManager`: the three mutators plus the read-only
`can_trade` query (which touches no state in src/src/core/safety.py). -/
inductive SafetyOp where
  | opn (symbol : String)
  | cls (symbol : String)
  | trade (symbol : String) (spread : Rat) (success : Bool) (now : Rat)
  | query (symbol : String) (now : Rat)

/-- Apply one operation to the state. -/
def applyOp (s : SafetyManager) : SafetyOp → SafetyManager
  | SafetyOp.opn symbol => s.register_open symbol
  | SafetyOp.cls symbol => s.register_close symbol
  | SafetyOp.trade symbol spread success now => s.record_trade symbol spread success now
  | SafetyOp.query _ _ => s

/-- Run a call sequence from the freshly constructed manager. -/
def runOps (ops : List SafetyOp) : SafetyManager :=
  ops.foldl applyOp SafetyManager.init

/-- Every stored open count is at least 1. -/
def openCountsPositive (s : SafetyManager) : Prop :=
  ∀ p ∈ s.open_symbols, 1 ≤ p.2

theorem bumpOpen_positive {m : List (String × Int)} {symbol : String}
    (h : ∀ p ∈ m, 1 ≤ p.2) : ∀ p ∈ SafetyManager.bumpOpen m symbol, 1 ≤ p.2 := by
  induction m with
  | nil => simp [SafetyManager.bumpOpen]
  | cons hd tl ih =>
    obtain ⟨k, v⟩ := hd
    simp only [SafetyManager.bumpOpen]
    split_ifs with hk
    · intro p hp
      rcases List.mem_cons.mp hp with h1 | h2
      · subst h1; have := h (k, v) (List.mem_cons_self _ _); omega
      · exact h p (List.mem_cons_of_mem _ h2)
    · intro p hp
      rcases List.mem_cons.mp hp with h1 | h2
      · subst h1; exact h (k, v) (List.mem_cons_self _ _)
      · exact ih (fun q hq => h q (List.mem_cons_of_mem _ hq)) p h2

theorem dropOpen_positive {m : List (String × Int)} {symbol : String}
    (h : ∀ p ∈ m, 1 ≤ p.2) : ∀ p ∈ SafetyManager.dropOpen m symbol, 1 ≤ p.2 := by
  induction m with
  | nil => simp [SafetyManager.dropOpen]
  | cons hd tl ih =>
    obtain ⟨k, v⟩ := hd
    simp only [SafetyManager.dropOpen]
    split_ifs with hk hv
    · exact fun p hp => h p (List.mem_cons_of_mem _ hp)
    · intro p hp
      rcases List.mem_cons.mp hp with h1 | h2
      · subst h1; omega
      · exact h p (List.mem_cons_of_mem _ h2)
    · intro p hp
      rcases List.mem_cons.mp hp with h1 | h2
      · subst h1; exact h (k, v) (List.mem_cons_self _ _)
      · exact ih (fun q hq => h q (List.mem_cons_of_mem _ hq)) p h2

theorem applyOp_positive {s : SafetyManager} (op : SafetyOp)
    (h : openCountsPositive s) : openCountsPositive (applyOp s op) := by
  cases op with
  | opn symbol => exact bumpOpen_positive h
  | cls symbol => exact dropOpen_positive h
  | trade symbol spread success now => exact h
  | query symbol now => exact h

theorem dropOpen_absent {m : List (String × Int)} {symbol : String}
    (h : m.lookup symbol = none) : SafetyManager.dropOpen m symbol = m := by
  induction m with
  | nil => rfl
  | cons hd tl ih =>
    obtain ⟨k, v⟩ := hd
    simp only [List.lookup] at h
    by_cases hk : k = symbol
    · subst hk
      simp at h
    · have hne : (symbol == k) = false := beq_eq_false_iff_ne.mpr (fun e => hk e.symm)
      rw [hne] at h
      simp only [SafetyManager.dropOpen]
      rw [if_neg hk, ih h]

/-- C10: after any finite sequence of `SafetyManager` operations starting from
the freshly constructed state, every count stored in `open_symbols` is at
least 1 (an entry is deleted as soon as its count would drop to zero or
below); and `register_close` on a symbol with no open entry is a no-op that
returns the state unchanged. -/
theorem safety_open_counts_invariant :
    (∀ ops : List SafetyOp, ∀ p ∈ (runOps ops).open_symbols, 1 ≤ p.2)
    ∧ (∀ (s : SafetyManager) (symbol : String),
        s.open_symbols.lookup symbol = none → s.register_close symbol = s) := by
  constructor
  · intro ops
    suffices h : ∀ (start : SafetyManager), openCountsPositive start →
        openCountsPositive (ops.foldl applyOp start) by
      exact h SafetyManager.init (by intro p hp; simp [SafetyManager.init] at hp)
    induction ops with
    | nil => exact fun start h => h
    | cons op rest ih =>
      intro start h
      exact ih (applyOp start op) (applyOp_positive op h)
  · intro s symbol h
    cases s with
    | mk th os ff =>
      simp only [SafetyManager.register_close]
      rw [dropOpen_absent h]

/-- Witness for C10: a concrete op sequence (two opens, a close, a trade and a
query) ends with the single remaining count equal to 1, and `register_close`
on an absent symbol is a no-op. -/
theorem safety_open_counts_invariant_witness :
    (∀ p ∈ (runOps [SafetyOp.opn "A", SafetyOp.opn "A", SafetyOp.cls "A",
        SafetyOp.trade "A" 1 true 0, SafetyOp.query "A" 1]).open_symbols, 1 ≤ p.2)
    ∧ SafetyManager.init.register_close "B" = SafetyManager.init :=
  ⟨safety_open_counts_invariant.1 _,
   safety_open_counts_invariant.2 SafetyManager.init "B" (by simp [SafetyManager.init])⟩

/-- Source: `OrderLeg` from `src/src/core/order_executor.py`, with its defaults
(`MARKET`, `INTRADAY`, `IOC`, price 0, trigger price 0). -/
structure OrderLeg where
  exchange : String
  symbol : String
  side : String
  quantity : Int
  order_type : String
  product : String
  validity : String
  price : Rat
  trigger_price : Rat
deriving Repr, DecidableEq

/-- One leg-placement outcome as seen by `_post_execute` and `_failsafe`:
either a result dict (the dict built by `_place_order`, carrying `status` and
possibly `price`, `filled_qty`, `requested_qty` — absent keys are `none`), or
a raw `Exception` object delivered by
`asyncio.gather(..., return_exceptions=True)`. -/
inductive LegResult where
  | dict (status : String) (price : Option Rat) (filled_qty : Option Int)
      (requested_qty : Option Int)
  | exn
deriving Repr, DecidableEq

/-- One entry of the execution summary: `{"result": ..., "leg": ...}`. -/
structure LegOutcome where
  result : LegResult
  leg : OrderLeg
deriving Repr, DecidableEq

/-- The summary dict built in `execute_pair`:
`{"buy": {"result", "leg"}, "sell": {"result", "leg"}}`. -/
structure Summary where
  buy : LegOutcome
  sell : LegOutcome
deriving Repr, DecidableEq

/-- The observable `SafetyManager` / venue actions performed by the executor,
in program order: `register_open`, `register_close`, `record_trade`, and the
submission of one failsafe square-off order. -/
inductive Event where
  | regOpen (symbol : String)
  | regClose (symbol : String)
  | recTrade (symbol : String) (spread : Rat) (success : Bool)
  | squareOff (leg : OrderLeg)
deriving Repr, DecidableEq

namespace OrderExecutor

/-- Source: `is_success` inside `_post_execute`: a dict result whose status is
`"COMPLETE"`; an `Exception` (or non-dict) is never a success. -/
def is_success : LegResult → Bool
  | LegResult.dict status _ _ _ => status = "COMPLETE"
  | LegResult.exn => false

/-- Source: `is_partial` inside `_post_execute`: a dict result with status
`"PARTIAL"`. -/
def is_partial : LegResult → Bool
  | LegResult.dict status _ _ _ => status = "PARTIAL"
  | LegResult.exn => false

/-- Source: `result.get("price")`: `none` for error dicts without the key and for
`Exception` results (which `_post_execute` first replaces by error dicts). -/
def resPrice : LegResult → Option Rat
  | LegResult.dict _ price _ _ => price
  | LegResult.exn => none

/-- Source: `result.get("status")` as seen by `_failsafe` (an `Exception` result is
not a dict, so `_failsafe` skips it; we give it no status). -/
def resStatus : LegResult → Option String
  | LegResult.dict status _ _ _ => some status
  | LegResult.exn => none

/-- Source: `result.get("filled_qty", 0)` as used by `_failsafe`. -/
def resFilledQty : LegResult → Int
  | LegResult.dict _ _ filled _ => filled.getD 0
  | LegResult.exn => 0

/-- Source: `result.get("requested_qty", leg.quantity)` as used by `_failsafe`. -/
def resRequestedQty (leg : OrderLeg) : LegResult → Int
  | LegResult.dict _ _ _ requested => requested.getD leg.quantity
  | LegResult.exn => leg.quantity

/-- Source: `_slip(actual, expected)`: zero when either price is missing, else the
absolute difference. -/
def slipOf (actual expected : Option Rat) : Rat :=
  match actual, expected with
  | some a, some e => |a - e|
  | _, _ => 0

/-- The expected price of a leg: the submitted limit price for `LIMIT` legs,
else the fill price itself (`buy_expected`/`sell_expected` in
`_post_execute`). -/
def expectedPrice (leg : OrderLeg) (res : LegResult) : Option Rat :=
  if leg.order_type = "LIMIT" then some leg.price else resPrice res

/-- Per-leg slippage as `_post_execute` computes it. -/
def legSlip (leg : OrderLeg) (res : LegResult) : Rat :=
  slipOf (resPrice res) (expectedPrice leg res)

/-- The square-off order `_failsafe` builds for one leg outcome (buy or
sell): present iff the result is a dict with status `COMPLETE` or `PARTIAL`
and the quantity to close (the filled quantity when positive, else the
requested quantity) is positive; the order is opposite-side, `MARKET`,
immediate-or-cancel. -/
def squareOffFor (symbol : String) (oppositeSide : String) (outcome : LegOutcome) :
    Option OrderLeg :=
  match outcome.result with
  | LegResult.exn => none
  | LegResult.dict status _ filled requested =>
    if status = "COMPLETE" ∨ status = "PARTIAL" then
      let filled_qty := filled.getD 0
      let requested_qty := requested.getD outcome.leg.quantity
      let qty_to_close := if 0 < filled_qty then filled_qty else requested_qty
      if 0 < qty_to_close then
        some (OrderLeg.mk outcome.leg.exchange symbol oppositeSide qty_to_close
          "MARKET" "INTRADAY" "IOC" 0 0)
      else none
    else none

/-- Source: `_failsafe` (src/src/core/order_executor.py lines 617-700): the list of
square-off orders submitted (concurrently, via one `asyncio.gather`), buy leg
first, sell leg second. -/
def failsafeLegs (symbol : String) (summary : Summary) : List OrderLeg :=
  (squareOffFor symbol (if summary.buy.leg.side = "BUY" then "SELL" else "BUY")
    summary.buy).toList ++
  (squareOffFor symbol (if summary.sell.leg.side = "SELL" then "BUY" else "SELL")
    summary.sell).toList

/-- The body of `_post_execute` up to (excluding) its final
`register_close`: on the success path (both legs `COMPLETE`, no partial fill,
no slippage breach) only `record_trade(success)`; on every other path the
failsafe square-off submissions followed by `record_trade(failure)`. Both
source branches end with the same `self.safety.register_close(symbol)`,
appended in `postExecute`. -/
def postExecuteBody (st : Settings) (symbol : String) (summary : Summary) (spread : Rat) :
    List Event :=
  let buy_ok0 := is_success summary.buy.result
  let sell_ok0 := is_success summary.sell.result
  let buy_partial := is_partial summary.buy.result
  let sell_partial := is_partial summary.sell.result
  let buy_slip := legSlip summary.buy.leg summary.buy.result
  let sell_slip := legSlip summary.sell.leg summary.sell.result
  let slippage_breach := decide (st.risk.max_slippage_per_leg < buy_slip) ||
    decide (st.risk.max_slippage_per_leg < sell_slip)
  let buy_ok := if slippage_breach then false else buy_ok0
  let sell_ok := if slippage_breach then false else sell_ok0
  let has_partial_fill := buy_partial || sell_partial
  if buy_ok && sell_ok && !has_partial_fill then
    [Event.recTrade symbol spread true]
  else
    (failsafeLegs symbol summary).map Event.squareOff ++
      [Event.recTrade symbol spread false]

/-- Source: `_post_execute` with its exception handler. `fault = none` is the normal
run. `fault = some k` is an internal exception after `k` completed actions of
the body: nothing in the source follows the final `register_close`, so any
internal exception interrupts the body before that call; the `except` block
then performs the single guaranteed `register_close`. -/
def postExecute (st : Settings) (symbol : String) (summary : Summary) (spread : Rat)
    (fault : Option Nat) : List Event :=
  let body := postExecuteBody st symbol summary spread
  match fault with
  | none => body ++ [Event.regClose symbol]
  | some k => body.take (min k body.length) ++ [Event.regClose symbol]

/-- Where an internal exception strikes `execute_pair` after admission:
nowhere, in the dispatch machinery between `register_open` and
`_post_execute` (caught by the outer handler, which performs the
`register_close`), or inside `_post_execute` after `k` actions (handled
there; `_post_execute` never propagates). -/
inductive PairFault where
  | fNone
  | fDispatch
  | fPost (k : Nat)
deriving Repr, DecidableEq

/-- The value `execute_pair` returns: the `{"status": "blocked"}` dict, the
execution summary, or the error summary built by the outer handler. -/
inductive ExecResult where
  | blocked
  | summaryResult (summary : Summary)
  | errorResult
deriving Repr, DecidableEq

/-- Source: `OrderExecutor.execute_pair` (src/src/core/order_executor.py lines
62-99) as a pure function from the admission state, the two legs, their
abstract placement results and the fault scenario to the returned value and
the ordered trace of observable actions. -/
def execute_pair (st : Settings) (s : SafetyManager) (buy_leg sell_leg : OrderLeg)
    (buy_result sell_result : LegResult) (spread : Rat) (now : Rat)
    (fault : PairFault) : ExecResult × List Event :=
  if SafetyManager.can_trade st s buy_leg.symbol now = false then
    (ExecResult.blocked, [])
  else
    let summary := Summary.mk (LegOutcome.mk buy_result buy_leg)
      (LegOutcome.mk sell_result sell_leg)
    match fault with
    | PairFault.fDispatch =>
      (ExecResult.errorResult, [Event.regOpen buy_leg.symbol, Event.regClose buy_leg.symbol])
    | PairFault.fNone =>
      (ExecResult.summaryResult summary,
        Event.regOpen buy_leg.symbol :: postExecute st buy_leg.symbol summary spread none)
    | PairFault.fPost k =>
      (ExecResult.summaryResult summary,
        Event.regOpen buy_leg.symbol :: postExecute st buy_leg.symbol summary spread (some k))

end OrderExecutor

/-- Replay a trace of events against a `SafetyManager` (all `record_trade`
timestamps taken at `tnow`); square-off submissions touch no safety state. -/
def applyEvent (tnow : Rat) (s : SafetyManager) : Event → SafetyManager
  | Event.regOpen symbol => s.register_open symbol
  | Event.regClose symbol => s.register_close symbol
  | Event.recTrade symbol spread success => s.record_trade symbol spread success tnow
  | Event.squareOff _ => s

/-- Replay a whole trace. -/
def applyEvents (tnow : Rat) (s : SafetyManager) (evs : List Event) : SafetyManager :=
  evs.foldl (applyEvent tnow) s

/-- Is this event a `register_open` call? -/
def isOpenEv : Event → Bool
  | Event.regOpen _ => true
  | _ => false

/-- Is this event a `register_close` call? -/
def isCloseEv : Event → Bool
  | Event.regClose _ => true
  | _ => false

/-- Number of `register_open` calls in a trace. -/
def countOpens (evs : List Event) : Nat := evs.countP isOpenEv

/-- Number of `register_close` calls in a trace. -/
def countCloses (evs : List Event) : Nat := evs.countP isCloseEv

theorem countOpens_append (l1 l2 : List Event) :
    countOpens (l1 ++ l2) = countOpens l1 + countOpens l2 :=
  List.countP_append isOpenEv l1 l2

theorem countCloses_append (l1 l2 : List Event) :
    countCloses (l1 ++ l2) = countCloses l1 + countCloses l2 :=
  List.countP_append isCloseEv l1 l2

theorem countOpens_map_squareOff (legs : List OrderLeg) :
    countOpens (legs.map Event.squareOff) = 0 := by
  induction legs with
  | nil => rfl
  | cons a l ih => simpa [countOpens, List.countP_cons, isOpenEv] using ih

theorem countCloses_map_squareOff (legs : List OrderLeg) :
    countCloses (legs.map Event.squareOff) = 0 := by
  induction legs with
  | nil => rfl
  | cons a l ih => simpa [countCloses, List.countP_cons, isCloseEv] using ih

theorem countOpens_body (st : Settings) (symbol : String) (summary : Summary) (spread : Rat) :
    countOpens (OrderExecutor.postExecuteBody st symbol summary spread) = 0 := by
  simp only [OrderExecutor.postExecuteBody]
  split_ifs <;> first
  | rfl
  | (rw [countOpens_append, countOpens_map_squareOff]; rfl)

theorem countCloses_body (st : Settings) (symbol : String) (summary : Summary) (spread : Rat) :
    countCloses (OrderExecutor.postExecuteBody st symbol summary spread) = 0 := by
  simp only [OrderExecutor.postExecuteBody]
  split_ifs <;> first
  | rfl
  | (rw [countCloses_append, countCloses_map_squareOff]; rfl)

theorem countOpens_take_zero {l : List Event} (h : countOpens l = 0) (n : Nat) :
    countOpens (l.take n) = 0 := by
  have hle : countOpens (l.take n) ≤ countOpens l :=
    List.Sublist.countP_le isOpenEv (List.take_sublist n l)
  omega

theorem countCloses_take_zero {l : List Event} (h : countCloses l = 0) (n : Nat) :
    countCloses (l.take n) = 0 := by
  have hle : countCloses (l.take n) ≤ countCloses l :=
    List.Sublist.countP_le isCloseEv (List.take_sublist n l)
  omega

theorem countOpens_postExecute (st : Settings) (symbol : String) (summary : Summary)
    (spread : Rat) (fault : Option Nat) :
    countOpens (OrderExecutor.postExecute st symbol summary spread fault) = 0 := by
  cases fault with
  | none =>
    rw [OrderExecutor.postExecute, countOpens_append, countOpens_body]
    rfl
  | some k =>
    rw [OrderExecutor.postExecute, countOpens_append,
      countOpens_take_zero (countOpens_body st symbol summary spread)]
    rfl

theorem countCloses_postExecute (st : Settings) (symbol : String) (summary : Summary)
    (spread : Rat) (fault : Option Nat) :
    countCloses (OrderExecutor.postExecute st symbol summary spread fault) = 1 := by
  cases fault with
  | none =>
    rw [OrderExecutor.postExecute, countCloses_append, countCloses_body]
    rfl
  | some k =>
    rw [OrderExecutor.postExecute, countCloses_append,
      countCloses_take_zero (countCloses_body st symbol summary spread)]
    rfl

/-- C2: whenever `execute_pair` passes admission (`can_trade` true), its trace
contains exactly one `register_open` and exactly one `register_close` — on
the success path, the failure-with-failsafe path, an internal exception in
the dispatch machinery, and an internal exception inside `_post_execute`
alike — and the `register_open` is the very first action, before any leg
dispatch; when admission is denied, neither call happens. -/
theorem execute_pair_open_close_balanced (st : Settings) (s : SafetyManager)
    (buy_leg sell_leg : OrderLeg) (buy_result sell_result : LegResult)
    (spread now : Rat) (fault : OrderExecutor.PairFault) :
    (SafetyManager.can_trade st s buy_leg.symbol now = true →
      countOpens (OrderExecutor.execute_pair st s buy_leg sell_leg buy_result sell_result
        spread now fault).2 = 1
      ∧ countCloses (OrderExecutor.execute_pair st s buy_leg sell_leg buy_result sell_result
        spread now fault).2 = 1
      ∧ (OrderExecutor.execute_pair st s buy_leg sell_leg buy_result sell_result
        spread now fault).2.head? = some (Event.regOpen buy_leg.symbol))
    ∧ (SafetyManager.can_trade st s buy_leg.symbol now = false →
      (OrderExecutor.execute_pair st s buy_leg sell_leg buy_result sell_result
        spread now fault).2 = []) := by
  constructor
  · intro h
    simp only [OrderExecutor.execute_pair, h]
    cases fault with
    | fDispatch => simp [countOpens, countCloses, List.countP_cons, isOpenEv, isCloseEv]
    | fNone =>
      refine ⟨?_, ?_, by simp⟩
      · simpa [countOpens, List.countP_cons, isOpenEv] using
          countOpens_postExecute st buy_leg.symbol
            (Summary.mk (LegOutcome.mk buy_result buy_leg) (LegOutcome.mk sell_result sell_leg))
            spread none
      · simpa [countCloses, List.countP_cons, isCloseEv] using
          countCloses_postExecute st buy_leg.symbol
            (Summary.mk (LegOutcome.mk buy_result buy_leg) (LegOutcome.mk sell_result sell_leg))
            spread none
    | fPost k =>
      refine ⟨?_, ?_, by simp⟩
      · simpa [countOpens, List.countP_cons, isOpenEv] using
          countOpens_postExecute st buy_leg.symbol
            (Summary.mk (LegOutcome.mk buy_result buy_leg) (LegOutcome.mk sell_result sell_leg))
            spread (some k)
      · simpa [countCloses, List.countP_cons, isCloseEv] using
          countCloses_postExecute st buy_leg.symbol
            (Summary.mk (LegOutcome.mk buy_result buy_leg) (LegOutcome.mk sell_result sell_leg))
            spread (some k)
  · intro h
    simp [OrderExecutor.execute_pair, h]

/-- Concrete legs and fully-filled results for the witnesses. -/
def buyLegW : OrderLeg := OrderLeg.mk "NSE" "RELIANCE" "BUY" 10 "LIMIT" "INTRADAY" "IOC" 100 0

def sellLegW : OrderLeg := OrderLeg.mk "BSE" "RELIANCE" "SELL" 10 "LIMIT" "INTRADAY" "IOC" 101 0

def buyResW : LegResult := LegResult.dict "COMPLETE" (some 100) (some 10) (some 10)

def sellResW : LegResult := LegResult.dict "COMPLETE" (some 101) (some 10) (some 10)

/-- Witness for C2: a fresh state admits the trade and the fault-free trace
opens once, closes once and opens first. -/
theorem execute_pair_open_close_balanced_witness :
    countOpens (OrderExecutor.execute_pair settingsW SafetyManager.init buyLegW sellLegW
      buyResW sellResW 1 0 OrderExecutor.PairFault.fNone).2 = 1
    ∧ countCloses (OrderExecutor.execute_pair settingsW SafetyManager.init buyLegW sellLegW
      buyResW sellResW 1 0 OrderExecutor.PairFault.fNone).2 = 1
    ∧ (OrderExecutor.execute_pair settingsW SafetyManager.init buyLegW sellLegW
      buyResW sellResW 1 0 OrderExecutor.PairFault.fNone).2.head? =
        some (Event.regOpen buyLegW.symbol) :=
  (execute_pair_open_close_balanced settingsW SafetyManager.init buyLegW sellLegW
    buyResW sellResW 1 0 OrderExecutor.PairFault.fNone).1
    (by norm_num [SafetyManager.can_trade, SafetyManager.init, settingsW, riskW,
      lookupCount, buyLegW])

/-- C6: per-leg slippage is `|actual fill price - expected price|` with the
expected price equal to the submitted limit price for `LIMIT` legs and to the
fill price itself otherwise (so non-`LIMIT` legs can never breach); and
whenever the slippage of either leg exceeds max-slippage-per-leg, the fault-free
`_post_execute` run takes the failure path — failsafe invoked, trade recorded
as failure, open marker released — with no condition on the leg statuses, so
in particular even when both legs report `COMPLETE`. -/
theorem slippage_forces_failure_path (st : Settings) (symbol : String) (summary : Summary)
    (spread : Rat) :
    (∀ (leg : OrderLeg) (res : LegResult) (a : Rat),
      leg.order_type = "LIMIT" → OrderExecutor.resPrice res = some a →
      OrderExecutor.legSlip leg res = |a - leg.price|)
    ∧ (∀ (leg : OrderLeg) (res : LegResult),
      leg.order_type ≠ "LIMIT" → OrderExecutor.legSlip leg res = 0)
    ∧ (st.risk.max_slippage_per_leg < OrderExecutor.legSlip summary.buy.leg summary.buy.result
        ∨ st.risk.max_slippage_per_leg <
          OrderExecutor.legSlip summary.sell.leg summary.sell.result →
      OrderExecutor.postExecute st symbol summary spread none =
        (OrderExecutor.failsafeLegs symbol summary).map Event.squareOff ++
          [Event.recTrade symbol spread false, Event.regClose symbol]) := by
  refine ⟨?_, ?_, ?_⟩
  · intro leg res a hlim hp
    simp [OrderExecutor.legSlip, OrderExecutor.slipOf, OrderExecutor.expectedPrice, hlim, hp]
  · intro leg res hlim
    cases hres : OrderExecutor.resPrice res with
    | none => simp [OrderExecutor.legSlip, OrderExecutor.slipOf, OrderExecutor.expectedPrice,
        hlim, hres]
    | some a => simp [OrderExecutor.legSlip, OrderExecutor.slipOf, OrderExecutor.expectedPrice,
        hlim, hres]
  · intro hbreach
    have hb : (decide (st.risk.max_slippage_per_leg <
        OrderExecutor.legSlip summary.buy.leg summary.buy.result) ||
      decide (st.risk.max_slippage_per_leg <
        OrderExecutor.legSlip summary.sell.leg summary.sell.result)) = true := by
      rcases hbreach with hb | hb <;> simp [hb]
    simp only [OrderExecutor.postExecute, OrderExecutor.postExecuteBody, hb]
    simp

/-- A buy-leg result whose actual fill price 100.6 diverges from the
submitted limit price 100 by 0.6, beyond the 0.25 limit. -/
def buyResSlip : LegResult := LegResult.dict "COMPLETE" (some (503/5)) (some 10) (some 10)

/-- Both legs report `COMPLETE`, yet the buy leg breaches slippage. -/
def summaryBreach : Summary :=
  Summary.mk (LegOutcome.mk buyResSlip buyLegW) (LegOutcome.mk sellResW sellLegW)

/-- Witness for C6: scenario D — both legs `COMPLETE`, buy-leg slippage
0.6 > 0.25, so the fault-free reconciliation takes the failure path. -/
theorem slippage_forces_failure_path_witness :
    OrderExecutor.postExecute settingsW "RELIANCE" summaryBreach 1 none =
      (OrderExecutor.failsafeLegs "RELIANCE" summaryBreach).map Event.squareOff ++
        [Event.recTrade "RELIANCE" 1 false, Event.regClose "RELIANCE"] :=
  (slippage_forces_failure_path settingsW "RELIANCE" summaryBreach 1).2.2
    (Or.inl (by
      norm_num [OrderExecutor.legSlip, OrderExecutor.slipOf, OrderExecutor.expectedPrice,
        OrderExecutor.resPrice, summaryBreach, buyResSlip, buyLegW, settingsW, riskW,
        abs_of_nonneg]))

/-- C5: on the failure path, `_failsafe` submits exactly one square-off order
per leg whose result shows a fill — reading "shows any fill (full or
partial)" as the result carrying status `COMPLETE` or `PARTIAL`, which is how
both `_place_order` reports fills and `_failsafe` tests for them — and that
order is opposite-side, `MARKET`, immediate-or-cancel, sized to the per-leg
actually filled quantity, never the originally requested one; a leg with zero
fill (any other status) gets no square-off order. The hypotheses state what
`_place_order` guarantees for every result it returns: a `COMPLETE` or
`PARTIAL` result carries a positive `filled_qty`. -/
theorem failsafe_sizes_to_filled (symbol : String) (summary : Summary)
    (hbuy : ∀ status price filled requested,
      summary.buy.result = LegResult.dict status price filled requested →
      status = "COMPLETE" ∨ status = "PARTIAL" → 0 < filled.getD 0)
    (hsell : ∀ status price filled requested,
      summary.sell.result = LegResult.dict status price filled requested →
      status = "COMPLETE" ∨ status = "PARTIAL" → 0 < filled.getD 0) :
    OrderExecutor.failsafeLegs symbol summary =
      (if OrderExecutor.resStatus summary.buy.result = some "COMPLETE" ∨
          OrderExecutor.resStatus summary.buy.result = some "PARTIAL" then
        [OrderLeg.mk summary.buy.leg.exchange symbol
          (if summary.buy.leg.side = "BUY" then "SELL" else "BUY")
          (OrderExecutor.resFilledQty summary.buy.result) "MARKET" "INTRADAY" "IOC" 0 0]
      else []) ++
      (if OrderExecutor.resStatus summary.sell.result = some "COMPLETE" ∨
          OrderExecutor.resStatus summary.sell.result = some "PARTIAL" then
        [OrderLeg.mk summary.sell.leg.exchange symbol
          (if summary.sell.leg.side = "SELL" then "BUY" else "SELL")
          (OrderExecutor.resFilledQty summary.sell.result) "MARKET" "INTRADAY" "IOC" 0 0]
      else []) := by
  rw [OrderExecutor.failsafeLegs]
  congr 1
  · cases hres : summary.buy.result with
    | exn => simp [OrderExecutor.squareOffFor, OrderExecutor.resStatus, hres]
    | dict status price filled requested =>
      simp only [OrderExecutor.squareOffFor, OrderExecutor.resStatus,
        OrderExecutor.resFilledQty, hres]
      by_cases hst : status = "COMPLETE" ∨ status = "PARTIAL"
      · have hpos := hbuy status price filled requested hres hst
        rw [if_pos hst, if_pos hpos, if_pos hpos]
        simp [hst]
      · rw [if_neg hst]
        simp only [Option.some.injEq]
        rw [if_neg (by simpa using hst)]
        rfl
  · cases hres : summary.sell.result with
    | exn => simp [OrderExecutor.squareOffFor, OrderExecutor.resStatus, hres]
    | dict status price filled requested =>
      simp only [OrderExecutor.squareOffFor, OrderExecutor.resStatus,
        OrderExecutor.resFilledQty, hres]
      by_cases hst : status = "COMPLETE" ∨ status = "PARTIAL"
      · have hpos := hsell status price filled requested hres hst
        rw [if_pos hst, if_pos hpos, if_pos hpos]
        simp [hst]
      · rw [if_neg hst]
        simp only [Option.some.injEq]
        rw [if_neg (by simpa using hst)]
        rfl

/-- A sell leg rejected with zero fill. -/
def sellResRej : LegResult := LegResult.dict "REJECTED" none (some 0) (some 10)

/-- Scenario C summary: buy leg fully filled, sell leg rejected. -/
def summaryC : Summary :=
  Summary.mk (LegOutcome.mk buyResW buyLegW) (LegOutcome.mk sellResRej sellLegW)

/-- Witness for C5: scenario C — the failsafe squares off only the filled buy
leg, with one opposite-side `MARKET`/`IOC` order sized to its fill. -/
theorem failsafe_sizes_to_filled_witness :
    OrderExecutor.failsafeLegs "RELIANCE" summaryC =
      (if OrderExecutor.resStatus summaryC.buy.result = some "COMPLETE" ∨
          OrderExecutor.resStatus summaryC.buy.result = some "PARTIAL" then
        [OrderLeg.mk summaryC.buy.leg.exchange "RELIANCE"
          (if summaryC.buy.leg.side = "BUY" then "SELL" else "BUY")
          (OrderExecutor.resFilledQty summaryC.buy.result) "MARKET" "INTRADAY" "IOC" 0 0]
      else []) ++
      (if OrderExecutor.resStatus summaryC.sell.result = some "COMPLETE" ∨
          OrderExecutor.resStatus summaryC.sell.result = some "PARTIAL" then
        [OrderLeg.mk summaryC.sell.leg.exchange "RELIANCE"
          (if summaryC.sell.leg.side = "SELL" then "BUY" else "SELL")
          (OrderExecutor.resFilledQty summaryC.sell.result) "MARKET" "INTRADAY" "IOC" 0 0]
      else []) :=
  failsafe_sizes_to_filled "RELIANCE" summaryC
    (by
      rintro status price filled requested h hst
      have : LegResult.dict "COMPLETE" (some 100) (some 10) (some 10) =
          LegResult.dict status price filled requested := h
      injection this with h1 h2 h3 h4
      subst h3
      norm_num)
    (by
      rintro status price filled requested h hst
      have : LegResult.dict "REJECTED" none (some 0) (some 10) =
          LegResult.dict status price filled requested := h
      injection this with h1 h2 h3 h4
      subst h1
      simp at hst)

/-- C7: when admission is denied, `execute_pair` returns the `"blocked"`
result at once with an empty action trace — no `register_open`, no
`register_close`, no `record_trade`, no order submission — and replaying
that trace leaves the `SafetyManager` state exactly as it was (`can_trade`
itself reads but never writes). -/
theorem execute_pair_blocked_readonly (st : Settings) (s : SafetyManager)
    (buy_leg sell_leg : OrderLeg) (buy_result sell_result : LegResult)
    (spread now : Rat) (fault : OrderExecutor.PairFault)
    (h : SafetyManager.can_trade st s buy_leg.symbol now = false) :
    OrderExecutor.execute_pair st s buy_leg sell_leg buy_result sell_result spread now fault =
      (OrderExecutor.ExecResult.blocked, [])
    ∧ ∀ tnow : Rat,
      applyEvents tnow s (OrderExecutor.execute_pair st s buy_leg sell_leg buy_result
        sell_result spread now fault).2 = s := by
  have hres : OrderExecutor.execute_pair st s buy_leg sell_leg buy_result sell_result
      spread now fault = (OrderExecutor.ExecResult.blocked, []) := by
    simp [OrderExecutor.execute_pair, h]
  exact ⟨hres, fun tnow => by rw [hres]; rfl⟩

/-- Witness for C7: the circuit-breaker-tripped state denies admission and
nothing is mutated. -/
theorem execute_pair_blocked_readonly_witness :
    OrderExecutor.execute_pair settingsW safetyTripped buyLegW sellLegW buyResW sellResW
      1 0 OrderExecutor.PairFault.fNone = (OrderExecutor.ExecResult.blocked, [])
    ∧ applyEvents 0 safetyTripped (OrderExecutor.execute_pair settingsW safetyTripped
        buyLegW sellLegW buyResW sellResW 1 0 OrderExecutor.PairFault.fNone).2 =
      safetyTripped := by
  have h := execute_pair_blocked_readonly settingsW safetyTripped buyLegW sellLegW
    buyResW sellResW 1 0 OrderExecutor.PairFault.fNone
    (by norm_num [SafetyManager.can_trade, safetyTripped, settingsW, riskW, lookupCount,
      buyLegW])
  exact ⟨h.1, h.2 0⟩

/-- A normalized market tick: the attributes of the feed tick objects that
`DecisionEngine` reads (src/src/core/decision_engine.py). -/
structure Tick where
  symbol : String
  exchange : String
  ltp : Rat
  best_bid : Rat
  best_ask : Rat
  bid_qty : Int
  ask_qty : Int
  depth : List (Rat × Int)
deriving Repr, DecidableEq

/-- The two latest-tick maps of `DecisionEngine`, keyed by symbol, as
insertion-ordered association lists. -/
structure EngineState where
  nse_ticks : List (String × Tick)
  bse_ticks : List (String × Tick)
deriving Repr, DecidableEq

namespace DecisionEngine

/-- Source: `bucket[tick.symbol] = tick` on the dict model: update in place or append
a new key at the end. -/
def setTick : List (String × Tick) → String → Tick → List (String × Tick)
  | [], symbol, t => [(symbol, t)]
  | (k, v) :: rest, symbol, t =>
    if k = symbol then (k, t) :: rest else (k, v) :: setTick rest symbol t

/-- Source: `bucket = self.nse_ticks if tick.exchange == "NSE" else self.bse_ticks;
bucket[tick.symbol] = tick`. -/
def updateTicks (e : EngineState) (tick : Tick) : EngineState :=
  if tick.exchange = "NSE" then
    EngineState.mk (setTick e.nse_ticks tick.symbol tick) e.bse_ticks
  else
    EngineState.mk e.nse_ticks (setTick e.bse_ticks tick.symbol tick)

/-- Source: `DecisionEngine._market_open` (src/src/core/decision_engine.py lines
30-32): `settings.trading_start <= now <= settings.trading_end`, with the
local time of day `now` passed explicitly (in minutes after midnight). -/
def market_open (st : Settings) (now : Nat) : Bool :=
  decide (st.trading_start ≤ now) && decide (now ≤ st.trading_end)

/-- Source: `DecisionEngine._build_snapshot`: a paired snapshot exists exactly when
both venue maps hold a tick for the symbol. -/
def build_snapshot (e : EngineState) (symbol : String) : Option QuoteSnapshot :=
  match e.nse_ticks.lookup symbol, e.bse_ticks.lookup symbol with
  | some nse, some bse =>
    some (QuoteSnapshot.mk symbol nse.ltp bse.ltp nse.best_bid nse.best_ask
      bse.best_bid bse.best_ask nse.bid_qty nse.ask_qty bse.bid_qty bse.ask_qty
      nse.depth bse.depth)
  | _, _ => none

/-- One iteration of the `DecisionEngine.run` loop for one arrived tick
(src/src/core/decision_engine.py lines 53-86): update the matching venue map
first; if the market-window check fails, emit nothing (`continue`); otherwise
build the paired snapshot for the symbol of the tick (emitting nothing when a
venue still has no tick) and evaluate it, yielding the snapshot passed to the
telemetry hook together with the optional detector signal. -/
def processTick (st : Settings) (d : SpreadDetector) (e : EngineState) (tick : Tick)
    (now : Nat) : EngineState × Option (QuoteSnapshot × Option SpreadSignal) :=
  let e2 := updateTicks e tick
  (e2,
    if market_open st now = false then none
    else
      match build_snapshot e2 tick.symbol with
      | none => none
      | some snapshot => some (snapshot, SpreadDetector.evaluate st d snapshot))

end DecisionEngine

/-- An NSE tick already held by the engine. -/
def tickNSE : Tick := Tick.mk "RELIANCE" "NSE" 100 100 99 50 50 []

/-- A BSE tick for the same symbol, arriving at the boundary instant. -/
def tickBSE : Tick := Tick.mk "RELIANCE" "BSE" 100 100 99 50 50 []

/-- Engine state in which NSE has already produced a tick for the symbol. -/
def engineE : EngineState := EngineState.mk [("RELIANCE", tickNSE)] []

/-- Counterexample to C8 as stated: the trading window of
`DecisionEngine._market_open` is inclusive at BOTH ends
(`start <= now <= end`), not the half-open `[start, end)` the claim asserts.
At the exact configured end time (15:30, i.e. 930 minutes) a tick does
produce a snapshot: with both venues quoting, the per-tick step returns a
built snapshot instead of the `none` the claim requires. -/
theorem trading_window_end_exclusive_counterexample :
    (930 = settingsW.trading_end) ∧
    ((DecisionEngine.processTick settingsW detectorW engineE tickBSE 930).2.isSome = true) := by
  constructor
  · rfl
  · rfl

/-- C8 (amended): the trading window is the interval `[start, end]` CLOSED at
both ends in local time. For every tick, processing first updates the
latest-tick map of that venue regardless of time; if the local tick time lies
outside `[start, end]` no snapshot is built and no signal or execution occurs
for that tick; at any time inside the closed interval — including exactly the
start time and exactly the end time — the snapshot/signal pipeline runs,
emitting the paired snapshot and the detector verdict whenever both venues
have produced a tick for the symbol. -/
theorem trading_window_closed_interval (st : Settings) (d : SpreadDetector)
    (e : EngineState) (tick : Tick) (now : Nat) :
    (DecisionEngine.processTick st d e tick now).1 = DecisionEngine.updateTicks e tick
    ∧ (¬(st.trading_start ≤ now ∧ now ≤ st.trading_end) →
      (DecisionEngine.processTick st d e tick now).2 = none)
    ∧ (st.trading_start ≤ now ∧ now ≤ st.trading_end →
      (DecisionEngine.processTick st d e tick now).2 =
        match DecisionEngine.build_snapshot (DecisionEngine.updateTicks e tick)
            tick.symbol with
        | none => none
        | some snapshot => some (snapshot, SpreadDetector.evaluate st d snapshot)) := by
  refine ⟨rfl, ?_, ?_⟩
  · intro h
    have hm : DecisionEngine.market_open st now = false := by
      simp only [DecisionEngine.market_open, Bool.and_eq_false_iff,
        decide_eq_false_iff_not]
      omega
    simp [DecisionEngine.processTick, hm]
  · intro h
    have hm : DecisionEngine.market_open st now = true := by
      simp only [DecisionEngine.market_open, Bool.and_eq_true, decide_eq_true_eq]
      omega
    simp [DecisionEngine.processTick, hm]

/-- Witness for the amended C8: one minute past the end (931) the same tick
yields nothing, while exactly at the end (930) the pipeline runs and builds
the paired snapshot. -/
theorem trading_window_closed_interval_witness :
    (DecisionEngine.processTick settingsW detectorW engineE tickBSE 931).2 = none
    ∧ (DecisionEngine.processTick settingsW detectorW engineE tickBSE 930).2 =
      (match DecisionEngine.build_snapshot (DecisionEngine.updateTicks engineE tickBSE)
          tickBSE.symbol with
      | none => none
      | some snapshot => some (snapshot, SpreadDetector.evaluate settingsW detectorW snapshot)) :=
  ⟨(trading_window_closed_interval settingsW detectorW engineE tickBSE 931).2.1
      (by norm_num [settingsW]),
   (trading_window_closed_interval settingsW detectorW engineE tickBSE 930).2.2
      (by norm_num [settingsW])⟩

end Arb
